import Mathlib

/-!
Verification of the escrow settlement core of the P2P market-maker bot.

The definitions below are a shallow embedding of the live branches of
src/handlers/callbackHandler.js: the deposit-detection branch
(callbackData "check_deposit"), the bilateral release branch
("release_confirm_yes_"), the admin release branch
("admin_release_confirm_yes_") and the refund branch
("refund_confirm_yes_", the first of the two occurrences in the
if/else-if chain, which is the one that is reachable), together with
the fee table of src/config/feeConfig.js.

Decimal token amounts are embedded as rationals; the integer minor-unit
("wei") mirror is embedded as an integer.  JavaScript number-or-fallback
expressions (a || b) on numeric fields are embedded by jsOr, which falls
through exactly on zero.  External collaborators (the blockchain transfer
service, message ids, token decimals, the latest block number) enter as
explicit parameters; every invocation of the transfer collaborator is
recorded in the result so that theorems can speak about whether and with
which amounts it was called.
-/

namespace P2PMM

/-- Trade lifecycle states, as the status strings stored on the escrow
record. -/
inductive Status where
  | draft
  | awaitingDetails
  | awaitingDeposit
  | deposited
  | inFiatTransfer
  | readyToRelease
  | disputed
  | completed
  | refunded
deriving DecidableEq, Repr

/-- The status filter used by the settlement branches when loading the
escrow: Escrow.findOne with status in [deposited, in_fiat_transfer,
ready_to_release, disputed]. -/
def Status.isSettlementActive : Status → Bool
  | .deposited => true
  | .inFiatTransfer => true
  | .readyToRelease => true
  | .disputed => true
  | _ => false

/-- Terminal states, as tested by the handlers ([completed, refunded]
includes checks). -/
def Status.isTerminal : Status → Bool
  | .completed => true
  | .refunded => true
  | _ => false

/-- The escrow record, restricted to the fields read or written by the
embedded branches. -/
structure Escrow where
  status : Status
  buyerId : Option Int
  sellerId : Option Int
  buyerAddress : Option String
  sellerAddress : Option String
  token : String
  chain : String
  quantity : Option ℚ
  feeRate : ℚ
  networkFee : ℚ
  depositAmount : ℚ
  confirmedAmount : ℚ
  accumulatedDepositAmount : ℚ
  accumulatedDepositAmountWei : ℤ
  transactionHash : Option String
  depositTransactionFromAddress : Option String
  partialTransactionHashes : List String
  releaseTransactionHash : Option String
  partialReleaseTransactionHashes : List String
  refundTransactionHash : Option String
  buyerConfirmedRelease : Bool
  sellerConfirmedRelease : Bool
  adminConfirmedRelease : Bool
  buyerConfirmedRefund : Bool
  sellerConfirmedRefund : Bool
  pendingReleaseAmount : Option ℚ
  pendingRefundAmount : Option ℚ
  releaseConfirmationMessageId : Option Nat
  refundConfirmationMessageId : Option Nat
  depositAddress : Option String
  lastCheckedBlock : Nat
deriving DecidableEq, Repr

/-- The user clicking a settlement button: their id and whether the
admin-config lookup recognises them as an admin. -/
structure Actor where
  userId : Int
  isAdminUser : Bool
deriving DecidableEq, Repr

def Actor.isBuyerOf (a : Actor) (e : Escrow) : Bool :=
  e.buyerId = some a.userId

def Actor.isSellerOf (a : Actor) (e : Escrow) : Bool :=
  e.sellerId = some a.userId

/-- Which vault entry point a collaborator invocation targets. -/
inductive CallKind where
  | release
  | refund
deriving DecidableEq, Repr

/-- One recorded invocation of BlockchainService.releaseFunds or
refundFunds: the token, chain, destination address, decimal amount and
the optional exact minor-unit override passed to it. -/
structure TransferCall where
  kind : CallKind
  token : String
  chain : String
  destination : Option String
  amount : ℚ
  amountWei : Option ℤ
deriving DecidableEq, Repr

/-- Behaviour of the blockchain transfer collaborator for one handler
run: the n-th invocation either succeeds with a transaction hash or
rejects (throws). -/
structure TransferEnv where
  result : Nat → Option String

/-- The user-facing outcome of a handler run, abstracting the reply or
callback-answer text of each return path. -/
inductive Signal where
  | noActiveEscrow
  | noDepositAddress
  | depositConfirmed
  | noNewDeposit
  | staleConfirmation
  | alreadySettled
  | accessDenied
  | adminOnly
  | waitingApproval
  | missingAddressOrZero
  | exceedsBalance
  | nonPositive
  | netTooSmall
  | transferFailed
  | releaseDone
  | errorThrown
  | releaseError
  | expiredRequest
  | sellerOnly
  | invalidAmount
  | refundFailed
  | refundDone
deriving DecidableEq, Repr

/-- Result of a handler run: the saved escrow record, the transfer
collaborator invocations made (in order, whether or not they
succeeded), and the signalled outcome. -/
structure HResult where
  escrow : Escrow
  calls : List TransferCall
  signal : Signal
deriving DecidableEq, Repr

/-! ## Numeric helpers mirroring the JavaScript arithmetic -/

/-- JavaScript a || b on numbers: falls through exactly when a is 0. -/
def jsOr (a b : ℚ) : ℚ := if a = 0 then b else a

/-- The epsilon tolerance used by every settlement branch. -/
def EPSILON : ℚ := 1 / 100000

/-- ethers.formatUnits on a minor-unit integer. -/
def formatUnits (w : ℤ) (d : ℕ) : ℚ := (w : ℚ) / 10 ^ d

/-- ethers.parseUnits of x.toFixed(d): the amount rounded to d decimal
places and scaled to an integer. -/
def parseUnits (q : ℚ) (d : ℕ) : ℤ := round (q * 10 ^ d)

/-- parseFloat of x.toFixed(d): rounding to d decimal places. -/
def roundToDecimals (q : ℚ) (d : ℕ) : ℚ := (round (q * 10 ^ d) : ℚ) / 10 ^ d

/-- Math.floor(x * 100) / 100, used by the admin release gross-up. -/
def floor2 (q : ℚ) : ℚ := (⌊q * 100⌋ : ℚ) / 100

/-- Math.abs. -/
def jsAbs (q : ℚ) : ℚ := if q < 0 then -q else q

/-- The clamp both release branches apply to the minor-unit remainder:
a negative difference is stored as zero. -/
def clampRemainingWei (total override : ℤ) : ℤ :=
  if total - override < 0 then 0 else total - override

/-! ## Fee policy (src/config/feeConfig.js) -/

/-- getNetworkFee: flat fee by chain and bio-tag tier; unknown chains
fall back to the BSC entry. -/
def getNetworkFee (chain : String) (hasBioTag : Bool) : ℚ :=
  let c := chain.toUpper
  if c = "BSC" ∨ c = "BNB" then (if hasBioTag then 2/10 else 3/10)
  else if c = "TRON" ∨ c = "TRX" then (if hasBioTag then 2 else 3)
  else (if hasBioTag then 2/10 else 3/10)

/-- getServiceFee: percentage tier by which parties carry the bio tag. -/
def getServiceFee (sellerHasTag buyerHasTag : Bool) : ℚ :=
  if sellerHasTag ∧ buyerHasTag then 1/4
  else if sellerHasTag ∨ buyerHasTag then 1/2
  else 3/4

/-! ## Shared amount selectors used by the settlement branches -/

/-- The stored minor-unit mirror, treated as absent when it is the
string "0" or missing (wei && wei !== "0"). -/
def Escrow.totalDepositedWeiOpt (e : Escrow) : Option ℤ :=
  if e.accumulatedDepositAmountWei ≠ 0 then some e.accumulatedDepositAmountWei
  else none

/-- Number(accumulatedDepositAmount || depositAmount || confirmedAmount
|| 0). -/
def Escrow.totalDeposited (e : Escrow) : ℚ :=
  jsOr e.accumulatedDepositAmount (jsOr e.depositAmount e.confirmedAmount)

/-- The decimal balance the release branches validate against: the
formatted wei mirror when present, else the decimal chain. -/
def Escrow.formattedTotalDeposited (e : Escrow) (d : ℕ) : ℚ :=
  match e.totalDepositedWeiOpt with
  | some w => formatUnits w d
  | none => e.totalDeposited

/-! ## Deposit detection ("check_deposit" branch) -/

/-- One transfer record observed on chain for the vault address. -/
structure ObservedTx where
  sender : String
  toAddr : String
  hash : Option String
  valueDecimal : ℚ
deriving DecidableEq, Repr

/-- Case-insensitive test whether a hash is already recorded on the
escrow (primary transactionHash or the partial hash list). -/
def Escrow.hashRecorded (e : Escrow) (h : String) : Bool :=
  (match e.transactionHash with
   | some t => t.toLower = h.toLower
   | none => false) ||
  e.partialTransactionHashes.any (fun t => t.toLower = h.toLower)

/-- The newDeposits filter: keep transfers into the vault whose hash is
absent or not yet recorded. -/
def depositFilter (e : Escrow) (vault : String) (tx : ObservedTx) : Bool :=
  if tx.toAddr.toLower ≠ vault.toLower then false
  else
    match tx.hash with
    | none => true
    | some h => !(e.hashRecorded h)

/-- The hash-recording loop: the first hash with no primary recorded
becomes the primary (with its sender); later hashes are appended to the
partial list unless already present (exact string comparison, as in the
source). -/
def recordHashes (e : Escrow) (txs : List ObservedTx) : Escrow :=
  txs.foldl
    (fun acc tx =>
      match tx.hash with
      | none => acc
      | some h =>
        match acc.transactionHash with
        | none =>
          { acc with transactionHash := some h,
                     depositTransactionFromAddress := some tx.sender }
        | some primary =>
          if ¬ acc.partialTransactionHashes.contains h ∧ primary ≠ h then
            { acc with partialTransactionHashes :=
                acc.partialTransactionHashes ++ [h] }
          else acc)
    e

/-- The "check_deposit" branch: filter the observed transfers against
the recorded hashes, sum the new amounts, and on any positive new
amount record hashes, write the new running totals to depositAmount and
confirmedAmount, and set status to deposited. -/
def checkDeposit (e : Escrow) (latestBlock : Option Nat)
    (txs : List ObservedTx) : Escrow × Signal :=
  if ¬ (e.status = .awaitingDeposit ∨ e.status = .deposited) then
    (e, .noActiveEscrow)
  else
    match e.depositAddress with
    | none => (e, .noDepositAddress)
    | some vault =>
      let newDeposits := txs.filter (depositFilter e vault)
      let newAmount := (newDeposits.map (fun tx => tx.valueDecimal)).sum
      let totalAmount := e.depositAmount + newAmount
      if 0 < newAmount then
        let e1 := match latestBlock with
          | some b => { e with lastCheckedBlock := b }
          | none => e
        let e2 := recordHashes e1 newDeposits
        ({ e2 with depositAmount := totalAmount,
                   confirmedAmount := totalAmount,
                   status := .deposited }, .depositConfirmed)
      else (e, .noNewDeposit)

/-! ## Consent updates and quorum gates -/

/-- Staleness check against the recorded confirmation-prompt message id:
rejected when no id is recorded, or the click carries an id different
from the recorded one. -/
def staleMsg (stored callback : Option Nat) : Bool :=
  stored.isNone || (callback.isSome && stored ≠ callback)

/-- Flag update of the release branch: the clicking buyer or seller sets
their own flag; an admin who is neither party sets the separate admin
flag. -/
def applyReleaseConsent (e : Escrow) (a : Actor) : Escrow :=
  { e with
    buyerConfirmedRelease := e.buyerConfirmedRelease || a.isBuyerOf e,
    sellerConfirmedRelease := e.sellerConfirmedRelease || a.isSellerOf e,
    adminConfirmedRelease := e.adminConfirmedRelease ||
      (a.isAdminUser && !a.isBuyerOf e && !a.isSellerOf e) }

/-- canExecute of the release branch: admin approval short-circuits
bilateral consent. -/
def releaseQuorum (e : Escrow) : Bool :=
  e.adminConfirmedRelease || (e.buyerConfirmedRelease && e.sellerConfirmedRelease)

/-- Flag update of the refund branch: there is no admin refund flag; an
admin who is neither party sets both party flags instead. -/
def applyRefundConsent (e : Escrow) (a : Actor) : Escrow :=
  { e with
    buyerConfirmedRefund := e.buyerConfirmedRefund || a.isBuyerOf e ||
      (a.isAdminUser && !a.isBuyerOf e && !a.isSellerOf e),
    sellerConfirmedRefund := e.sellerConfirmedRefund || a.isSellerOf e ||
      (a.isAdminUser && !a.isBuyerOf e && !a.isSellerOf e) }

/-- Execution gate of the refund branch: both party flags. -/
def refundQuorum (e : Escrow) : Bool :=
  e.buyerConfirmedRefund && e.sellerConfirmedRefund

/-! ## Release settlement -/

/-- The requested gross release amount: the pending partial amount when
set, else the full formatted balance. -/
def releaseAmountOf (e : Escrow) (d : ℕ) : ℚ :=
  match e.pendingReleaseAmount with
  | some p => p
  | none => e.formattedTotalDeposited d

/-- The net amount the bilateral release branch hands to the transfer
collaborator: gross minus the percentage service fee minus the flat
network fee. -/
def releaseNetOf (e : Escrow) (d : ℕ) : ℚ :=
  releaseAmountOf e d - releaseAmountOf e d * e.feeRate / 100 - e.networkFee

/-- The exact minor-unit override both release branches compute: the
stored wei for a full release, a truncating proportional share of the
stored wei for a partial release, else parseUnits of the decimal amount
(also the fallback when the proportional division would divide by
zero). -/
def computeAmountWeiOverride (e : Escrow) (d : ℕ) (releaseAmount : ℚ) :
    Option ℤ :=
  let ftd := e.formattedTotalDeposited d
  let isFull := jsAbs (releaseAmount - ftd) < EPSILON
  match e.totalDepositedWeiOpt with
  | some w =>
    if isFull then some w
    else if 0 < ftd then
      let denom := parseUnits ftd d
      if denom = 0 then some (parseUnits releaseAmount d)
      else some (Int.tdiv (w * parseUnits releaseAmount d) denom)
    else some (parseUnits releaseAmount d)
  | none => some (parseUnits releaseAmount d)

/-- The full-release completion update: default the quantity when unset
or non-positive, mark completed, zero the decimal ledger fields and the
wei mirror. -/
def completeRelease (e : Escrow) (amt : ℚ) : Escrow :=
  let e1 := match e.quantity with
    | some q => if q ≤ 0 then { e with quantity := some amt } else e
    | none => { e with quantity := some amt }
  { e1 with status := .completed,
            accumulatedDepositAmount := 0,
            depositAmount := 0,
            confirmedAmount := 0,
            accumulatedDepositAmountWei := 0 }

/-- Body of the bilateral release branch after canExecute holds: guard
on an existing release hash or terminal status, validate address and
amounts, compute the net payout, invoke the transfer collaborator once
with the net amount, and on success record the hash and either complete
the trade or store the partial remainder. -/
def releaseExec (env : TransferEnv) (d : ℕ) (e : Escrow) : HResult :=
  if e.releaseTransactionHash.isSome ∨ e.status = .completed ∨
      e.status = .refunded then
    ⟨e, [], .alreadySettled⟩
  else
    let weiOpt := e.totalDepositedWeiOpt
    let ftd := e.formattedTotalDeposited d
    if e.buyerAddress = none ∨ e.totalDeposited ≤ 0 then
      ⟨e, [], .missingAddressOrZero⟩
    else
      let releaseAmount := releaseAmountOf e d
      if ftd < releaseAmount then ⟨e, [], .exceedsBalance⟩
      else if releaseAmount ≤ 0 then ⟨e, [], .nonPositive⟩
      else
        let override := computeAmountWeiOverride e d releaseAmount
        let actualAmountToUser := releaseNetOf e d
        if actualAmountToUser ≤ 0 then ⟨e, [], .netTooSmall⟩
        else
          let call : TransferCall :=
            ⟨.release, e.token, e.chain, e.buyerAddress,
             actualAmountToUser, none⟩
          match env.result 0 with
          | none => ⟨e, [call], .transferFailed⟩
          | some h =>
            let e1 := { e with
              releaseTransactionHash := some h,
              partialReleaseTransactionHashes :=
                e.partialReleaseTransactionHashes ++ [h] }
            let maxAmountToContract := ftd - e.networkFee
            let maxServiceFee := maxAmountToContract * e.feeRate / 100
            let maxReceivable := maxAmountToContract - maxServiceFee
            let isPartialR := EPSILON < jsAbs (actualAmountToUser - maxReceivable)
            let e2 :=
              if isPartialR then
                let remaining := ftd - releaseAmount
                if remaining < EPSILON then completeRelease e1 actualAmountToUser
                else
                  let e2a := { e1 with
                    accumulatedDepositAmount := remaining,
                    depositAmount := remaining,
                    confirmedAmount := remaining }
                  match weiOpt, override with
                  | some w, some o =>
                    { e2a with accumulatedDepositAmountWei :=
                        clampRemainingWei w o }
                  | _, _ => e2a
              else completeRelease e1 actualAmountToUser
            ⟨{ e2 with pendingReleaseAmount := none }, [call], .releaseDone⟩

/-- The "release_confirm_yes_" branch: load under the active-status
filter, reject stale prompts, record the consent of the clicking actor,
and run the settlement body only once the quorum gate holds. -/
def releaseConfirmYes (env : TransferEnv) (d : ℕ) (callbackMsgId : Option Nat)
    (a : Actor) (e : Escrow) : HResult :=
  if ¬ e.status.isSettlementActive then ⟨e, [], .noActiveEscrow⟩
  else if staleMsg e.releaseConfirmationMessageId callbackMsgId then
    ⟨e, [], .staleConfirmation⟩
  else if e.status.isTerminal then ⟨e, [], .alreadySettled⟩
  else if ¬ (a.isBuyerOf e ∨ a.isSellerOf e ∨ a.isAdminUser) then
    ⟨e, [], .accessDenied⟩
  else
    let e1 := applyReleaseConsent e a
    if ¬ releaseQuorum e1 then ⟨e1, [], .waitingApproval⟩
    else releaseExec env d e1

/-! ## Admin release settlement -/

/-- The gross-up computation of the admin release branch when no partial
amount is pending: subtract the fees from the full decimal balance,
truncate to two decimals, then divide by (1 - feeRate) to gross the
target payout back up, capping at the balance. -/
def adminGrossUpAmount (e : Escrow) : ℚ :=
  let totalDeposited := e.totalDeposited
  let feeRateDecimal := e.feeRate / 100
  let grossFee := totalDeposited * feeRateDecimal
  let targetPayout := floor2 (totalDeposited - (e.networkFee + grossFee))
  let ra :=
    if targetPayout ≤ 0 then totalDeposited - e.networkFee
    else if 1 ≤ feeRateDecimal then totalDeposited - e.networkFee
    else targetPayout / (1 - feeRateDecimal)
  if totalDeposited < ra then totalDeposited else ra

/-- Body of the admin release branch after the admin flag is set: it
invokes the transfer collaborator with the net amount BEFORE the
exceeds-balance and non-positive checks, and then invokes it a second
time with the gross amount minus the network fee; only the second
invocation has its result recorded. -/
def adminReleaseExec (env : TransferEnv) (d : ℕ) (e : Escrow) : HResult :=
  let weiOpt := e.totalDepositedWeiOpt
  let ftd := e.formattedTotalDeposited d
  if e.buyerAddress = none ∨ e.totalDeposited ≤ 0 then
    ⟨e, [], .missingAddressOrZero⟩
  else
    let releaseAmount :=
      match e.pendingReleaseAmount with
      | some p => p
      | none => adminGrossUpAmount e
    let serviceFee := releaseAmount * e.feeRate / 100
    let netAmount := releaseAmount - serviceFee - e.networkFee
    if netAmount ≤ 0 then ⟨e, [], .errorThrown⟩
    else
      let call1 : TransferCall :=
        ⟨.release, e.token, e.chain, e.buyerAddress, netAmount, none⟩
      match env.result 0 with
      | none => ⟨e, [call1], .errorThrown⟩
      | some _h1 =>
        if ftd < releaseAmount then ⟨e, [call1], .exceedsBalance⟩
        else if releaseAmount ≤ 0 then ⟨e, [call1], .nonPositive⟩
        else
          let override := computeAmountWeiOverride e d releaseAmount
          let amountToRelease := releaseAmount - e.networkFee
          if amountToRelease ≤ 0 then ⟨e, [call1], .releaseError⟩
          else
            let call2 : TransferCall :=
              ⟨.release, e.token, e.chain, e.buyerAddress,
               amountToRelease, override⟩
            match env.result 1 with
            | none => ⟨e, [call1, call2], .releaseError⟩
            | some h =>
              let e1 := { e with
                releaseTransactionHash := some h,
                partialReleaseTransactionHashes :=
                  e.partialReleaseTransactionHashes ++ [h] }
              let isPartialR := EPSILON ≤ jsAbs (releaseAmount - ftd)
              let remaining := ftd - releaseAmount
              let isActuallyFull := remaining < EPSILON
              let e2 :=
                if isPartialR ∧ ¬ isActuallyFull then
                  let e2a := { e1 with
                    accumulatedDepositAmount := remaining,
                    depositAmount := remaining,
                    confirmedAmount := remaining }
                  match weiOpt, override with
                  | some w, some o =>
                    { e2a with accumulatedDepositAmountWei :=
                        clampRemainingWei w o }
                  | _, _ => e2a
                else completeRelease e1 releaseAmount
              ⟨{ e2 with pendingReleaseAmount := none,
                         adminConfirmedRelease := false },
               [call1, call2], .releaseDone⟩

/-- The "admin_release_confirm_yes_" branch: load under the
active-status filter, reject stale prompts, require an admin actor, set
the admin release flag, and run the admin settlement body. -/
def adminReleaseConfirmYes (env : TransferEnv) (d : ℕ)
    (callbackMsgId : Option Nat) (a : Actor) (e : Escrow) : HResult :=
  if ¬ e.status.isSettlementActive then ⟨e, [], .noActiveEscrow⟩
  else if staleMsg e.releaseConfirmationMessageId callbackMsgId then
    ⟨e, [], .staleConfirmation⟩
  else if e.status.isTerminal then ⟨e, [], .alreadySettled⟩
  else if ¬ a.isAdminUser then ⟨e, [], .adminOnly⟩
  else adminReleaseExec env d { e with adminConfirmedRelease := true }

/-! ## Refund settlement -/

/-- Number(accumulatedDepositAmount || depositAmount || 0) as computed
by the refund branch. -/
def refundTotalDeposited (e : Escrow) : ℚ :=
  jsOr e.accumulatedDepositAmount e.depositAmount

/-- The refund amount: the pending partial amount (JavaScript || falls
through on 0 and null) clamped to the balance with Math.min. -/
def refundAmountOf (e : Escrow) : ℚ :=
  min
    (match e.pendingRefundAmount with
     | some p => jsOr p (refundTotalDeposited e)
     | none => refundTotalDeposited e)
    (refundTotalDeposited e)

/-- Body of the refund branch once both party flags hold: the requested
amount is clamped to the balance with Math.min rather than validated,
the network fee is subtracted unless that would be non-positive (in
which case the full amount is sent), the transfer collaborator is
invoked, and on success the hash is recorded and the ledger updated.
There is no terminal-status or existing-refund-hash guard, the consent
flags are not reset, and the wei mirror is not updated. -/
def refundExec (env : TransferEnv) (d : ℕ) (e : Escrow) : HResult :=
  let totalDeposited := refundTotalDeposited e
  let refundAmount := refundAmountOf e
  if refundAmount ≤ 0 then ⟨e, [], .invalidAmount⟩
  else
    let isFullAmount := jsAbs (refundAmount - totalDeposited) < EPSILON
    let refundAmountNum := roundToDecimals refundAmount d
    let amountToContract := refundAmountNum - e.networkFee
    let actualAmountToUser :=
      if amountToContract ≤ 0 then refundAmountNum else amountToContract
    let call : TransferCall :=
      ⟨.refund, e.token, e.chain, e.sellerAddress, actualAmountToUser, none⟩
    match env.result 0 with
    | none => ⟨e, [call], .refundFailed⟩
    | some h =>
      let e1 := { e with refundTransactionHash := some h }
      let e2 :=
        if ¬ isFullAmount then
          let remaining := totalDeposited - refundAmount
          if remaining < EPSILON then
            { e1 with status := .refunded,
                      accumulatedDepositAmount := 0,
                      depositAmount := 0,
                      confirmedAmount := 0 }
          else
            { e1 with accumulatedDepositAmount := remaining,
                      depositAmount := remaining,
                      confirmedAmount := remaining }
        else
          { e1 with status := .refunded,
                    accumulatedDepositAmount := 0,
                    depositAmount := 0,
                    confirmedAmount := 0 }
      ⟨{ e2 with pendingRefundAmount := none }, [call], .refundDone⟩

/-- The "refund_confirm_yes_" branch (the reachable first occurrence):
load WITHOUT any status filter, reject stale prompts, record the
consent of the clicking actor (an admin sets both party flags), and run
the settlement body once both party flags hold. -/
def refundConfirmYes (env : TransferEnv) (d : ℕ) (callbackMsgId : Option Nat)
    (a : Actor) (e : Escrow) : HResult :=
  if staleMsg e.refundConfirmationMessageId callbackMsgId then
    ⟨e, [], .expiredRequest⟩
  else if ¬ (a.isBuyerOf e ∨ a.isSellerOf e ∨ a.isAdminUser) then
    ⟨e, [], .accessDenied⟩
  else
    let e1 := applyRefundConsent e a
    if ¬ refundQuorum e1 then ⟨e1, [], .waitingApproval⟩
    else refundExec env d e1

/-- The "fiat_release_confirm_" branch: once the seller confirms having
received the fiat payment, funds are released to the buyer WITHOUT any
consent-flag quorum: the branch is gated only by the active-status
filter and the clicking user being the seller.  The full formatted
balance minus the network fee is handed to the transfer collaborator
(with a null wei override), and on success the trade is completed, the
hash recorded and the ledger zeroed. -/
def fiatReleaseConfirm (env : TransferEnv) (d : ℕ) (a : Actor) (e : Escrow) :
    HResult :=
  if ¬ e.status.isSettlementActive then ⟨e, [], .noActiveEscrow⟩
  else if ¬ a.isSellerOf e then ⟨e, [], .sellerOnly⟩
  else
    let amount := e.formattedTotalDeposited d
    if e.buyerAddress = none ∨ amount ≤ 0 then ⟨e, [], .missingAddressOrZero⟩
    else
      let amountToContract := amount - e.networkFee
      let call : TransferCall :=
        ⟨.release, e.token, e.chain, e.buyerAddress, amountToContract, none⟩
      match env.result 0 with
      | none => ⟨e, [call], .releaseError⟩
      | some h =>
        ⟨completeRelease { e with releaseTransactionHash := some h } amount,
         [call], .releaseDone⟩

/-- Modelled from the spec: the canonical net payout formula of
section 4.2, net = gross - gross * feeRatePercent / 100 -
networkFeeFlat, stated here for comparison against the amounts the
embedded release branches hand to the transfer collaborator. -/
def spec_computeNetPayout (gross feeRatePercent networkFeeFlat : ℚ) : ℚ :=
  gross - gross * feeRatePercent / 100 - networkFeeFlat

/-! ## Concrete scenarios -/

/-- A transfer collaborator that always succeeds. -/
def okEnv : TransferEnv := ⟨fun _ => some "0xsettled"⟩

def buyerActor : Actor := ⟨11, false⟩

def sellerActor : Actor := ⟨22, false⟩

def adminActor : Actor := ⟨99, true⟩

/-- The round-trip scenario of the spec: a deposited USDT/BSC trade with
accumulated balance 1000, feeRate 0.5 percent, network fee 0.3, no wei
mirror, buyer consent to release already recorded. -/
def fullReleaseEscrow : Escrow :=
  { status := .deposited
    buyerId := some 11
    sellerId := some 22
    buyerAddress := some "0xbuyer"
    sellerAddress := some "0xseller"
    token := "USDT"
    chain := "BSC"
    quantity := some 1000
    feeRate := 1/2
    networkFee := 3/10
    depositAmount := 1000
    confirmedAmount := 1000
    accumulatedDepositAmount := 1000
    accumulatedDepositAmountWei := 0
    transactionHash := some "0xdep"
    depositTransactionFromAddress := some "0xsender"
    partialTransactionHashes := []
    releaseTransactionHash := none
    partialReleaseTransactionHashes := []
    refundTransactionHash := none
    buyerConfirmedRelease := true
    sellerConfirmedRelease := false
    adminConfirmedRelease := false
    buyerConfirmedRefund := false
    sellerConfirmedRefund := false
    pendingReleaseAmount := none
    pendingRefundAmount := none
    releaseConfirmationMessageId := some 5
    refundConfirmationMessageId := some 6
    depositAddress := some "0xvault"
    lastCheckedBlock := 0 }

/-- The partial-release scenario: same trade with a pending partial
release of 400 and a wei mirror of 10^21 minor units (18 decimals). -/
def partialReleaseEscrow : Escrow :=
  { fullReleaseEscrow with
    pendingReleaseAmount := some 400
    accumulatedDepositAmountWei := 10 ^ 21 }

/-- Admin-path scenario for the fee-formula comparison: the round-trip
escrow with no consent recorded yet. -/
def adminScenarioEscrow : Escrow :=
  { fullReleaseEscrow with buyerConfirmedRelease := false }

/-- Refund over-request scenario: pending refund of 1200 against an
accumulated balance of 1000, buyer consent already recorded. -/
def refundOverEscrow : Escrow :=
  { fullReleaseEscrow with
    pendingRefundAmount := some 1200
    buyerConfirmedRefund := true }

/-- Bilateral release over-request scenario: pending release of 1200
against an accumulated balance of 1000. -/
def releaseOverEscrow : Escrow :=
  { fullReleaseEscrow with pendingReleaseAmount := some 1200 }

/-- Post-partial-refund scenario: a deposited trade holding a remainder
of 600 that already carries a recorded refund transaction hash, buyer
refund consent recorded. -/
def refundAfterPartialEscrow : Escrow :=
  { fullReleaseEscrow with
    accumulatedDepositAmount := 600
    depositAmount := 600
    confirmedAmount := 600
    refundTransactionHash := some "0xprevrefund"
    buyerConfirmedRefund := true }

/-- Deposit-detection scenario: a trade awaiting a deposit of agreed
quantity 100 with an empty ledger. -/
def depositEscrow : Escrow :=
  { fullReleaseEscrow with
    status := .awaitingDeposit
    quantity := some 100
    depositAmount := 0
    confirmedAmount := 0
    accumulatedDepositAmount := 0
    transactionHash := none
    buyerConfirmedRelease := false }

/-- An observed on-chain transfer of 1 token into the vault. -/
def smallDepositTx : ObservedTx :=
  ⟨"0xsender", "0xvault", some "0xaaa", 1⟩

/-- An observed transfer re-reporting the already-recorded primary
deposit hash with a different amount. -/
def dupDepositTx : ObservedTx :=
  ⟨"0xsender", "0xvault", some "0xdep", 5⟩

/-- A trade already settled: terminal status. -/
def completedEscrow : Escrow :=
  { fullReleaseEscrow with status := .completed }

/-- A trade whose ledger is already empty. -/
def emptyRefundEscrow : Escrow :=
  { fullReleaseEscrow with
    accumulatedDepositAmount := 0
    depositAmount := 0
    confirmedAmount := 0 }

/-- A trade with no consent recorded in either direction. -/
def soloEscrow : Escrow :=
  { fullReleaseEscrow with buyerConfirmedRelease := false }

end P2PMM





/-! ## Helper lemmas -/

namespace P2PMM

theorem clampRemainingWei_nonneg (t o : ℤ) : 0 ≤ clampRemainingWei t o := by
  unfold clampRemainingWei
  split
  · exact le_refl 0
  · omega

theorem completeRelease_wei (e : Escrow) (amt : ℚ) :
    (completeRelease e amt).accumulatedDepositAmountWei = 0 := rfl

theorem terminal_not_active (s : Status) :
    s.isTerminal = true → s.isSettlementActive = false := by
  cases s <;> decide

theorem active_not_terminal (s : Status) :
    s.isSettlementActive = true → s.isTerminal = false := by
  cases s <;> decide

theorem active_ne_completed (s : Status) :
    s.isSettlementActive = true → s ≠ .completed := by
  cases s <;> decide

theorem active_ne_refunded (s : Status) :
    s.isSettlementActive = true → s ≠ .refunded := by
  cases s <;> decide

theorem releaseExec_calls_of_settled (env : TransferEnv) (d : ℕ) (e : Escrow)
    (h : e.releaseTransactionHash.isSome = true ∨ e.status = .completed ∨
      e.status = .refunded) :
    (releaseExec env d e).calls = [] := by
  unfold releaseExec
  rw [if_pos h]

theorem refundExec_calls_of_nonpos (env : TransferEnv) (d : ℕ) (e : Escrow)
    (h : refundTotalDeposited e ≤ 0) :
    (refundExec env d e).calls = [] := by
  have h1 : refundAmountOf e ≤ 0 := le_trans (min_le_right _ _) h
  simp only [refundExec]
  rw [if_pos h1]


theorem releaseConfirmYes_calls_of_settled (env : TransferEnv) (d : ℕ)
    (cb : Option Nat) (a : Actor) (e : Escrow)
    (h : e.status.isTerminal = true ∨ e.releaseTransactionHash.isSome = true) :
    (releaseConfirmYes env d cb a e).calls = [] := by
  rcases h with h | h
  · have hact : e.status.isSettlementActive = false := terminal_not_active _ h
    simp [releaseConfirmYes, hact]
  · simp only [releaseConfirmYes]
    repeat' split
    any_goals rfl
    exact releaseExec_calls_of_settled env d _ (Or.inl h)

theorem adminReleaseConfirmYes_calls_of_terminal (env : TransferEnv) (d : ℕ)
    (cb : Option Nat) (a : Actor) (e : Escrow)
    (h : e.status.isTerminal = true) :
    (adminReleaseConfirmYes env d cb a e).calls = [] := by
  have hact : e.status.isSettlementActive = false := terminal_not_active _ h
  simp [adminReleaseConfirmYes, hact]

theorem refundConfirmYes_calls_of_nonpos (env : TransferEnv) (d : ℕ)
    (cb : Option Nat) (a : Actor) (e : Escrow)
    (h : refundTotalDeposited e ≤ 0) :
    (refundConfirmYes env d cb a e).calls = [] := by
  simp only [refundConfirmYes]
  repeat' split
  any_goals rfl
  exact refundExec_calls_of_nonpos env d _ h

theorem releaseConfirmYes_calls_quorum (env : TransferEnv) (d : ℕ)
    (cb : Option Nat) (a : Actor) (e : Escrow)
    (h : (releaseConfirmYes env d cb a e).calls ≠ []) :
    releaseQuorum (applyReleaseConsent e a) = true := by
  by_contra hq
  apply h
  simp only [releaseConfirmYes]
  repeat' split
  all_goals rfl

theorem refundConfirmYes_calls_quorum (env : TransferEnv) (d : ℕ)
    (cb : Option Nat) (a : Actor) (e : Escrow)
    (h : (refundConfirmYes env d cb a e).calls ≠ []) :
    refundQuorum (applyRefundConsent e a) = true := by
  by_contra hq
  apply h
  simp only [refundConfirmYes]
  repeat' split
  all_goals rfl

theorem releaseExec_guard_settled (e : Escrow)
    (hhash : e.releaseTransactionHash = none)
    (hact : e.status.isSettlementActive = true) :
    ¬ (e.releaseTransactionHash.isSome = true ∨ e.status = .completed ∨
      e.status = .refunded) := by
  push_neg
  exact ⟨by simp [hhash], active_ne_completed _ hact, active_ne_refunded _ hact⟩

theorem releaseExec_guard_amount (e : Escrow)
    (haddr : e.buyerAddress ≠ none) (hpos : 0 < e.totalDeposited) :
    ¬ (e.buyerAddress = none ∨ e.totalDeposited ≤ 0) := by
  push_neg
  exact ⟨haddr, hpos⟩

theorem releaseExec_exceeds (env : TransferEnv) (d : ℕ) (e : Escrow)
    (hhash : e.releaseTransactionHash = none)
    (hact : e.status.isSettlementActive = true)
    (haddr : e.buyerAddress ≠ none)
    (hpos : 0 < e.totalDeposited)
    (hexc : e.formattedTotalDeposited d < releaseAmountOf e d) :
    releaseExec env d e = ⟨e, [], .exceedsBalance⟩ := by
  simp only [releaseExec]
  rw [if_neg (releaseExec_guard_settled e hhash hact),
      if_neg (releaseExec_guard_amount e haddr hpos), if_pos hexc]

theorem releaseExec_nonPositive (env : TransferEnv) (d : ℕ) (e : Escrow)
    (hhash : e.releaseTransactionHash = none)
    (hact : e.status.isSettlementActive = true)
    (haddr : e.buyerAddress ≠ none)
    (hpos : 0 < e.totalDeposited)
    (hle : releaseAmountOf e d ≤ e.formattedTotalDeposited d)
    (hng : releaseAmountOf e d ≤ 0) :
    releaseExec env d e = ⟨e, [], .nonPositive⟩ := by
  simp only [releaseExec]
  rw [if_neg (releaseExec_guard_settled e hhash hact),
      if_neg (releaseExec_guard_amount e haddr hpos),
      if_neg (not_lt.mpr hle), if_pos hng]

theorem releaseExec_invokes (env : TransferEnv) (d : ℕ) (e : Escrow)
    (hhash : e.releaseTransactionHash = none)
    (hact : e.status.isSettlementActive = true)
    (haddr : e.buyerAddress ≠ none)
    (hpos : 0 < e.totalDeposited)
    (hle : releaseAmountOf e d ≤ e.formattedTotalDeposited d)
    (hgt : 0 < releaseAmountOf e d)
    (hnet : 0 < releaseNetOf e d) :
    (releaseExec env d e).calls =
      [⟨.release, e.token, e.chain, e.buyerAddress, releaseNetOf e d, none⟩] := by
  simp only [releaseExec]
  rw [if_neg (releaseExec_guard_settled e hhash hact),
      if_neg (releaseExec_guard_amount e haddr hpos),
      if_neg (not_lt.mpr hle), if_neg (not_le.mpr hgt), if_neg (not_le.mpr hnet)]
  cases hE : env.result 0 <;> rfl

theorem releaseConfirmYes_exec (env : TransferEnv) (d : ℕ) (cb : Option Nat)
    (a : Actor) (e : Escrow)
    (hst : e.status.isSettlementActive = true)
    (hstale : staleMsg e.releaseConfirmationMessageId cb = false)
    (hacc : a.isBuyerOf e = true ∨ a.isSellerOf e = true ∨ a.isAdminUser = true)
    (hq : releaseQuorum (applyReleaseConsent e a) = true) :
    releaseConfirmYes env d cb a e = releaseExec env d (applyReleaseConsent e a) := by
  simp only [releaseConfirmYes]
  rw [if_neg (not_not_intro hst), if_neg (by simp [hstale]),
      if_neg (by simp [active_not_terminal _ hst]), if_neg (not_not_intro hacc),
      if_neg (not_not_intro hq)]

theorem refundConfirmYes_exec (env : TransferEnv) (d : ℕ) (cb : Option Nat)
    (a : Actor) (e : Escrow)
    (hstale : staleMsg e.refundConfirmationMessageId cb = false)
    (hacc : a.isBuyerOf e = true ∨ a.isSellerOf e = true ∨ a.isAdminUser = true)
    (hq : refundQuorum (applyRefundConsent e a) = true) :
    refundConfirmYes env d cb a e = refundExec env d (applyRefundConsent e a) := by
  simp only [refundConfirmYes]
  rw [if_neg (by simp [hstale]), if_neg (not_not_intro hacc),
      if_neg (not_not_intro hq)]

theorem adminReleaseConfirmYes_exec (env : TransferEnv) (d : ℕ) (cb : Option Nat)
    (a : Actor) (e : Escrow)
    (hst : e.status.isSettlementActive = true)
    (hstale : staleMsg e.releaseConfirmationMessageId cb = false)
    (hadmin : a.isAdminUser = true) :
    adminReleaseConfirmYes env d cb a e =
      adminReleaseExec env d { e with adminConfirmedRelease := true } := by
  simp only [adminReleaseConfirmYes]
  rw [if_neg (not_not_intro hst), if_neg (by simp [hstale]),
      if_neg (by simp [active_not_terminal _ hst]), if_neg (not_not_intro hadmin)]

theorem releaseExec_wei_nonneg (env : TransferEnv) (d : ℕ) (e : Escrow)
    (h : 0 ≤ e.accumulatedDepositAmountWei) :
    0 ≤ (releaseExec env d e).escrow.accumulatedDepositAmountWei := by
  simp only [releaseExec]
  repeat' split
  all_goals first
    | exact h
    | exact clampRemainingWei_nonneg _ _
    | simp [completeRelease_wei]

theorem adminReleaseExec_wei_nonneg (env : TransferEnv) (d : ℕ) (e : Escrow)
    (h : 0 ≤ e.accumulatedDepositAmountWei) :
    0 ≤ (adminReleaseExec env d e).escrow.accumulatedDepositAmountWei := by
  simp only [adminReleaseExec]
  repeat' split
  all_goals first
    | exact h
    | exact clampRemainingWei_nonneg _ _
    | simp [completeRelease_wei]

theorem releaseConfirmYes_wei_nonneg (env : TransferEnv) (d : ℕ)
    (cb : Option Nat) (a : Actor) (e : Escrow)
    (h : 0 ≤ e.accumulatedDepositAmountWei) :
    0 ≤ (releaseConfirmYes env d cb a e).escrow.accumulatedDepositAmountWei := by
  simp only [releaseConfirmYes]
  repeat' split
  all_goals first
    | exact h
    | exact releaseExec_wei_nonneg env d _ h

theorem adminReleaseConfirmYes_wei_nonneg (env : TransferEnv) (d : ℕ)
    (cb : Option Nat) (a : Actor) (e : Escrow)
    (h : 0 ≤ e.accumulatedDepositAmountWei) :
    0 ≤ (adminReleaseConfirmYes env d cb a e).escrow.accumulatedDepositAmountWei := by
  simp only [adminReleaseConfirmYes]
  repeat' split
  all_goals first
    | exact h
    | exact adminReleaseExec_wei_nonneg env d _ h

/-- Filtered new-deposit amount of a check run. -/
theorem depositFilter_false_of_recorded (e : Escrow) (vault : String)
    (tx : ObservedTx) (hsh : String) (htx : tx.hash = some hsh)
    (hrec : e.hashRecorded hsh = true) :
    depositFilter e vault tx = false := by
  unfold depositFilter
  split
  · rfl
  · rw [htx]
    simp [hrec]

theorem depositFilter_true_of_fresh (e : Escrow) (vault : String)
    (tx : ObservedTx) (hsh : String) (htx : tx.hash = some hsh)
    (hto : tx.toAddr.toLower = vault.toLower)
    (hfresh : e.hashRecorded hsh = false) :
    depositFilter e vault tx = true := by
  unfold depositFilter
  rw [if_neg (not_not_intro hto), htx]
  simp [hfresh]

theorem checkDeposit_nil (e : Escrow) (l : Option Nat) :
    (checkDeposit e l []).1 = e := by
  simp only [checkDeposit, List.filter_nil, List.map_nil, List.sum_nil,
    lt_irrefl, if_false]
  repeat' split
  all_goals rfl

theorem checkDeposit_dup_cons (e : Escrow) (l : Option Nat)
    (tx : ObservedTx) (txs : List ObservedTx) (hsh : String)
    (htx : tx.hash = some hsh) (hrec : e.hashRecorded hsh = true) :
    checkDeposit e l (tx :: txs) = checkDeposit e l txs := by
  by_cases hst : (e.status = Status.awaitingDeposit ∨ e.status = Status.deposited)
  · cases hda : e.depositAddress with
    | none => simp [checkDeposit, hst, hda]
    | some vault =>
      have hf := depositFilter_false_of_recorded e vault tx hsh htx hrec
      simp [checkDeposit, hst, hda, List.filter_cons, hf]
  · simp [checkDeposit, hst]

theorem hashRecorded_parts (e : Escrow) (hsh : String)
    (hfresh : e.hashRecorded hsh = false) :
    (∀ p, e.transactionHash = some p → (p.toLower = hsh.toLower) = False) ∧
    ∀ x ∈ e.partialTransactionHashes, (x.toLower = hsh.toLower) = False := by
  unfold Escrow.hashRecorded at hfresh
  rw [Bool.or_eq_false_iff] at hfresh
  obtain ⟨h1, h2⟩ := hfresh
  constructor
  · intro p hp
    rw [hp] at h1
    simpa using h1
  · intro x hx
    rw [List.any_eq_false] at h2
    simpa using h2 x hx

theorem checkDeposit_single_fresh (e : Escrow) (l : Option Nat)
    (tx : ObservedTx) (hsh : String) (vault : String)
    (htx : tx.hash = some hsh)
    (hst : e.status = Status.awaitingDeposit ∨ e.status = Status.deposited)
    (hda : e.depositAddress = some vault)
    (hto : tx.toAddr.toLower = vault.toLower)
    (hfresh : e.hashRecorded hsh = false)
    (hval : 0 < tx.valueDecimal) :
    (checkDeposit e l [tx]).1.hashRecorded hsh = true ∧
    (checkDeposit e l [tx]).1.depositAmount = e.depositAmount + tx.valueDecimal := by
  obtain ⟨hprim, hpart⟩ := hashRecorded_parts e hsh hfresh
  have hf := depositFilter_true_of_fresh e vault tx hsh htx hto hfresh
  have hrec :
      ∀ e1 : Escrow, e1.transactionHash = e.transactionHash →
        e1.partialTransactionHashes = e.partialTransactionHashes →
        (recordHashes e1 [tx]).hashRecorded hsh = true := by
    intro e1 h1 h2
    simp only [recordHashes, List.foldl_cons, List.foldl_nil, htx, h1, h2]
    cases hth : e.transactionHash with
    | none =>
      simp [Escrow.hashRecorded]
    | some primary =>
      have h3 := hprim primary hth
      have hne : primary ≠ hsh := by
        intro hcontra
        rw [hcontra] at h3
        simp at h3
      have hnc : ¬ e.partialTransactionHashes.contains hsh = true := by
        intro hc
        have hm : hsh ∈ e.partialTransactionHashes := by
          simpa using hc
        have h4 := hpart hsh hm
        simp at h4
      have hnm : hsh ∉ e.partialTransactionHashes := by
        simpa using hnc
      simp [Escrow.hashRecorded, List.any_append, hnm, hne, h3]
  constructor
  · simp only [checkDeposit, hda]
    rw [if_neg (not_not_intro hst)]
    simp only [List.filter_cons, hf, if_true, List.filter_nil, List.map_cons,
      List.map_nil, List.sum_cons, List.sum_nil, add_zero]
    rw [if_pos hval]
    cases l with
    | none => exact hrec e rfl rfl
    | some b => exact hrec _ rfl rfl
  · simp only [checkDeposit, hda]
    rw [if_neg (not_not_intro hst)]
    simp only [List.filter_cons, hf, if_true, List.filter_nil, List.map_cons,
      List.map_nil, List.sum_cons, List.sum_nil, add_zero]
    rw [if_pos hval]

theorem checkDeposit_positive (e : Escrow) (l : Option Nat)
    (txs : List ObservedTx) (vault : String)
    (hst : e.status = Status.awaitingDeposit ∨ e.status = Status.deposited)
    (hda : e.depositAddress = some vault)
    (hpos : 0 <
      ((txs.filter (depositFilter e vault)).map (fun tx => tx.valueDecimal)).sum) :
    (checkDeposit e l txs).1.status = Status.deposited ∧
    (checkDeposit e l txs).1.depositAmount = e.depositAmount +
      ((txs.filter (depositFilter e vault)).map (fun tx => tx.valueDecimal)).sum ∧
    (checkDeposit e l txs).1.confirmedAmount = e.depositAmount +
      ((txs.filter (depositFilter e vault)).map (fun tx => tx.valueDecimal)).sum := by
  refine ⟨?_, ?_, ?_⟩ <;>
    (simp only [checkDeposit, hda]
     rw [if_neg (not_not_intro hst), if_pos hpos])

theorem checkDeposit_zero (e : Escrow) (l : Option Nat)
    (txs : List ObservedTx) (vault : String)
    (hda : e.depositAddress = some vault)
    (hz : ¬ (0 <
      ((txs.filter (depositFilter e vault)).map (fun tx => tx.valueDecimal)).sum)) :
    (checkDeposit e l txs).1 = e := by
  simp only [checkDeposit, hda]
  repeat' split
  all_goals rfl

theorem applyRefundConsent_admin (e : Escrow) (a : Actor)
    (ha : a.isAdminUser = true) (hb : a.isBuyerOf e = false)
    (hs : a.isSellerOf e = false) :
    applyRefundConsent e a =
      { e with buyerConfirmedRefund := true, sellerConfirmedRefund := true } := by
  simp [applyRefundConsent, ha, hb, hs]

theorem applyRefundConsent_admin_eq_bilateral (e : Escrow) (a b s : Actor)
    (ha : a.isAdminUser = true) (hab : a.isBuyerOf e = false)
    (has : a.isSellerOf e = false)
    (hbb : b.isBuyerOf e = true) (hss : s.isSellerOf e = true) :
    applyRefundConsent e a =
      applyRefundConsent (applyRefundConsent e b) s := by
  have hba : e.buyerId ≠ some a.userId := by
    simpa [Actor.isBuyerOf] using hab
  have hsa : e.sellerId ≠ some a.userId := by
    simpa [Actor.isSellerOf] using has
  have hbb1 : e.buyerId = some b.userId := by
    simpa [Actor.isBuyerOf] using hbb
  have hss1 : e.sellerId = some s.userId := by
    simpa [Actor.isSellerOf] using hss
  have hba2 : b.userId ≠ a.userId := by
    intro hcontra
    exact hba (by rw [hbb1, hcontra])
  have hsa2 : s.userId ≠ a.userId := by
    intro hcontra
    exact hsa (by rw [hss1, hcontra])
  simp [applyRefundConsent, Actor.isBuyerOf, Actor.isSellerOf, ha, hba, hsa,
    hbb1, hss1, hba2, hsa2]

theorem refundConfirmYes_admin_eq_bilateral (env : TransferEnv) (d : ℕ)
    (cb : Option Nat) (a b s : Actor) (e : Escrow)
    (hstale : staleMsg e.refundConfirmationMessageId cb = false)
    (ha : a.isAdminUser = true) (hab : a.isBuyerOf e = false)
    (has : a.isSellerOf e = false)
    (hbb : b.isBuyerOf e = true) (hbs : b.isSellerOf e = false)
    (hbad : b.isAdminUser = false)
    (hss : s.isSellerOf e = true)
    (_hbf : e.buyerConfirmedRefund = false)
    (hsf : e.sellerConfirmedRefund = false) :
    refundConfirmYes env d cb a e =
      refundConfirmYes env d cb s ((refundConfirmYes env d cb b e).escrow) := by
  have hq1 : ¬ refundQuorum (applyRefundConsent e b) = true := by
    simp [refundQuorum, applyRefundConsent, hbs, hbad, hsf]
  have h1 : refundConfirmYes env d cb b e =
      ⟨applyRefundConsent e b, [], .waitingApproval⟩ := by
    simp only [refundConfirmYes]
    rw [if_neg (by simp [hstale]), if_neg (not_not_intro (Or.inl hbb)),
      if_pos hq1]
  rw [h1]
  have hstale2 :
      staleMsg (applyRefundConsent e b).refundConfirmationMessageId cb = false :=
    hstale
  have hss2 : s.isSellerOf (applyRefundConsent e b) = true := hss
  have hbb3 : e.buyerId = some b.userId := by
    simpa [Actor.isBuyerOf] using hbb
  have hss3 : e.sellerId = some s.userId := by
    simpa [Actor.isSellerOf] using hss
  have hq2 : refundQuorum (applyRefundConsent (applyRefundConsent e b) s) = true := by
    simp [refundQuorum, applyRefundConsent, Actor.isBuyerOf, Actor.isSellerOf,
      hbb3, hss3]
  have hqa : refundQuorum (applyRefundConsent e a) = true := by
    simp [refundQuorum, applyRefundConsent, ha, hab, has]
  rw [refundConfirmYes_exec env d cb a e hstale (Or.inr (Or.inr ha)) hqa,
      refundConfirmYes_exec env d cb s _ hstale2 (Or.inr (Or.inl hss2)) hq2]
  congr 1
  exact applyRefundConsent_admin_eq_bilateral e a b s ha hab has hbb hss

theorem fiatReleaseConfirm_calls_seller (env : TransferEnv) (d : ℕ)
    (a : Actor) (e : Escrow)
    (h : (fiatReleaseConfirm env d a e).calls ≠ []) :
    e.sellerId = some a.userId := by
  by_cases hs : a.isSellerOf e = true
  · simpa [Actor.isSellerOf] using hs
  · exfalso
    apply h
    simp only [fiatReleaseConfirm]
    split
    · rfl
    · rfl

theorem adminReleaseConfirmYes_calls_admin (env : TransferEnv) (d : ℕ)
    (cb : Option Nat) (a : Actor) (e : Escrow)
    (h : (adminReleaseConfirmYes env d cb a e).calls ≠ []) :
    a.isAdminUser = true := by
  by_contra hq
  apply h
  simp only [adminReleaseConfirmYes]
  repeat' split
  all_goals rfl

end P2PMM


/-! ## Claims -/

namespace P2PMM

/-- C1 (as stated, refuted): requesting a refund settlement of 1200
against an accumulated balance of 1000 is NOT rejected: the refund
branch clamps the request with Math.min and invokes the transfer
collaborator with 999.7 (1000 minus the 0.3 network fee). -/
theorem C1_counterexample :
    refundOverEscrow.pendingRefundAmount = some 1200 ∧
    refundTotalDeposited refundOverEscrow = 1000 ∧
    (refundConfirmYes okEnv 18 (some 6) sellerActor refundOverEscrow).calls
      = [⟨.refund, "USDT", "BSC", some "0xseller", 9997/10, none⟩] := by
  refine ⟨rfl, ?_, ?_⟩
  · norm_num [refundTotalDeposited, jsOr, refundOverEscrow, fullReleaseEscrow]
  · norm_num [refundConfirmYes, refundExec, applyRefundConsent, refundQuorum,
      staleMsg, Actor.isBuyerOf, Actor.isSellerOf, fullReleaseEscrow,
      refundOverEscrow, sellerActor, okEnv, roundToDecimals,
      refundTotalDeposited, refundAmountOf, jsOr, jsAbs, EPSILON, round_eq]
    try rfl

/-- C1 amended: only the bilateral release settlement path validates the
requested amount before any transfer collaborator call: at the
triggering confirmation event, a request exceeding the formatted
balance is rejected with the exceeds-balance signal and no transfer is
invoked, and a non-positive request is rejected with the non-positive
signal and no transfer is invoked.  (The refund path instead clamps the
request to the balance with Math.min and proceeds, and the admin
release path performs its exceeds-balance and non-positive checks only
after a first transfer collaborator invocation.) -/
theorem C1_amended (env : TransferEnv) (d : ℕ) (cb : Option Nat) (a : Actor)
    (e : Escrow)
    (hst : e.status.isSettlementActive = true)
    (hstale : staleMsg e.releaseConfirmationMessageId cb = false)
    (hacc : a.isBuyerOf e = true ∨ a.isSellerOf e = true ∨ a.isAdminUser = true)
    (hq : releaseQuorum (applyReleaseConsent e a) = true)
    (hhash : e.releaseTransactionHash = none)
    (haddr : e.buyerAddress ≠ none)
    (hpos : 0 < e.totalDeposited) :
    (e.formattedTotalDeposited d < releaseAmountOf e d →
      (releaseConfirmYes env d cb a e).signal = .exceedsBalance ∧
      (releaseConfirmYes env d cb a e).calls = []) ∧
    (releaseAmountOf e d ≤ e.formattedTotalDeposited d →
      releaseAmountOf e d ≤ 0 →
      (releaseConfirmYes env d cb a e).signal = .nonPositive ∧
      (releaseConfirmYes env d cb a e).calls = []) := by
  rw [releaseConfirmYes_exec env d cb a e hst hstale hacc hq]
  constructor
  · intro hexc
    rw [releaseExec_exceeds env d (applyReleaseConsent e a) hhash hst haddr
      hpos hexc]
    exact ⟨rfl, rfl⟩
  · intro hle hng
    rw [releaseExec_nonPositive env d (applyReleaseConsent e a) hhash hst
      haddr hpos hle hng]
    exact ⟨rfl, rfl⟩

/-- C1 witness: the bilateral release path at a concrete over-request
(pending release 1200 against balance 1000) rejects with the
exceeds-balance signal and no transfer call. -/
theorem C1_witness :
    (releaseConfirmYes okEnv 18 (some 5) sellerActor releaseOverEscrow).signal
      = .exceedsBalance ∧
    (releaseConfirmYes okEnv 18 (some 5) sellerActor releaseOverEscrow).calls
      = [] := by
  refine (C1_amended okEnv 18 (some 5) sellerActor releaseOverEscrow
    rfl rfl (Or.inr (Or.inl rfl)) (by decide) rfl (by decide) ?_).1 ?_
  · norm_num [Escrow.totalDeposited, jsOr, releaseOverEscrow, fullReleaseEscrow]
  · norm_num [Escrow.formattedTotalDeposited, Escrow.totalDepositedWeiOpt,
      Escrow.totalDeposited, releaseAmountOf, jsOr, releaseOverEscrow,
      fullReleaseEscrow]

/-- C2 (as stated, refuted): a refund trigger on a trade that already
carries a recorded refund transaction hash is not rejected: the refund
branch has no terminal-status or refund-hash guard and invokes the
transfer collaborator again for the 600 remainder. -/
theorem C2_counterexample :
    refundAfterPartialEscrow.refundTransactionHash = some "0xprevrefund" ∧
    (refundConfirmYes okEnv 18 (some 6) sellerActor
      refundAfterPartialEscrow).calls
      = [⟨.refund, "USDT", "BSC", some "0xseller", 5997/10, none⟩] := by
  refine ⟨rfl, ?_⟩
  norm_num [refundConfirmYes, refundExec, applyRefundConsent, refundQuorum,
    staleMsg, Actor.isBuyerOf, Actor.isSellerOf, fullReleaseEscrow,
    refundAfterPartialEscrow, sellerActor, okEnv, roundToDecimals,
    refundTotalDeposited, refundAmountOf, jsOr, jsAbs, EPSILON, round_eq]
  try rfl

/-- C2 amended: the bilateral release path rejects a settlement trigger
whenever the status is terminal or a release transaction hash is
already recorded, without invoking the transfer collaborator; the admin
release path rejects on terminal status (it has no recorded-hash
guard); the refund path has neither guard, and a repeat trigger is
stopped only when the remaining balance is no longer positive. -/
theorem C2_amended :
    (∀ (env : TransferEnv) (d : ℕ) (cb : Option Nat) (a : Actor) (e : Escrow),
      e.status.isTerminal = true ∨ e.releaseTransactionHash.isSome = true →
      (releaseConfirmYes env d cb a e).calls = []) ∧
    (∀ (env : TransferEnv) (d : ℕ) (cb : Option Nat) (a : Actor) (e : Escrow),
      e.status.isTerminal = true →
      (adminReleaseConfirmYes env d cb a e).calls = []) ∧
    (∀ (env : TransferEnv) (d : ℕ) (cb : Option Nat) (a : Actor) (e : Escrow),
      refundTotalDeposited e ≤ 0 →
      (refundConfirmYes env d cb a e).calls = []) :=
  ⟨fun env d cb a e h => releaseConfirmYes_calls_of_settled env d cb a e h,
   fun env d cb a e h => adminReleaseConfirmYes_calls_of_terminal env d cb a e h,
   fun env d cb a e h => refundConfirmYes_calls_of_nonpos env d cb a e h⟩

/-- C2 witness: concrete settled or emptied trades produce no transfer
call on any settlement trigger. -/
theorem C2_witness :
    (releaseConfirmYes okEnv 18 (some 5) sellerActor completedEscrow).calls
       = [] ∧
    (adminReleaseConfirmYes okEnv 18 (some 5) adminActor completedEscrow).calls
       = [] ∧
    (refundConfirmYes okEnv 18 (some 6) sellerActor emptyRefundEscrow).calls
       = [] := by
  refine ⟨C2_amended.1 okEnv 18 (some 5) sellerActor completedEscrow
      (Or.inl rfl),
    C2_amended.2.1 okEnv 18 (some 5) adminActor completedEscrow rfl,
    C2_amended.2.2 okEnv 18 (some 6) sellerActor emptyRefundEscrow ?_⟩
  norm_num [refundTotalDeposited, jsOr, emptyRefundEscrow, fullReleaseEscrow]

/-- C3 code evaluation: on the round-trip escrow (balance 1000, feeRate
0.5, network fee 0.3) the admin release branch computes the gross-up
amount and invokes the transfer collaborator twice, first with 994.4
and then with 999.39849..., while the bilateral release branch hands
over exactly the canonical net payout 994.7 of the spec formula; the
admin amounts do not satisfy the canonical formula. -/
theorem C3_code_eval :
    (adminReleaseConfirmYes okEnv 18 (some 5) adminActor
        adminScenarioEscrow).calls.map (fun c => c.amount)
      = [4972/5, 1988803/1990] ∧
    (releaseConfirmYes okEnv 18 (some 5) sellerActor
        fullReleaseEscrow).calls.map (fun c => c.amount)
      = [spec_computeNetPayout 1000 (1/2) (3/10)] ∧
    spec_computeNetPayout 1000 (1/2) (3/10) = 9947/10 ∧
    (4972/5 : ℚ) ≠ 9947/10 := by
  refine ⟨?_, ?_, ?_, ?_⟩
  · norm_num [adminReleaseConfirmYes, adminReleaseExec, adminGrossUpAmount,
      floor2, staleMsg, Status.isSettlementActive, Status.isTerminal,
      Actor.isBuyerOf, Actor.isSellerOf, fullReleaseEscrow,
      adminScenarioEscrow, adminActor, okEnv, Escrow.totalDeposited,
      Escrow.totalDepositedWeiOpt, Escrow.formattedTotalDeposited,
      computeAmountWeiOverride, completeRelease, jsOr, jsAbs, EPSILON,
      parseUnits, formatUnits, clampRemainingWei, round_eq, Int.tdiv]
    try rfl
  · norm_num [releaseConfirmYes, releaseExec, applyReleaseConsent,
      releaseQuorum, staleMsg, Status.isSettlementActive, Status.isTerminal,
      Actor.isBuyerOf, Actor.isSellerOf, fullReleaseEscrow, sellerActor,
      okEnv, Escrow.totalDeposited, Escrow.totalDepositedWeiOpt,
      Escrow.formattedTotalDeposited, releaseAmountOf, releaseNetOf,
      computeAmountWeiOverride, completeRelease, jsOr, jsAbs, EPSILON,
      parseUnits, formatUnits, clampRemainingWei, spec_computeNetPayout]
    try rfl
  · norm_num [spec_computeNetPayout]
  · norm_num

/-- C4 (as stated, refuted): the claim that a single non-admin party
can never invoke the transfer collaborator alone is false program-wide:
the fiat-release branch, gated only by the active status and the
clicking user being the seller, invokes the transfer collaborator with
999.7 on a lone non-admin seller click while every consent flag of the
trade is false. -/
theorem C4_counterexample :
    sellerActor.isAdminUser = false ∧
    soloEscrow.buyerConfirmedRelease = false ∧
    soloEscrow.sellerConfirmedRelease = false ∧
    soloEscrow.adminConfirmedRelease = false ∧
    soloEscrow.buyerConfirmedRefund = false ∧
    soloEscrow.sellerConfirmedRefund = false ∧
    (fiatReleaseConfirm okEnv 18 sellerActor soloEscrow).calls
      = [⟨.release, "USDT", "BSC", some "0xbuyer", 9997/10, none⟩] := by
  refine ⟨rfl, rfl, rfl, rfl, rfl, rfl, ?_⟩
  norm_num [fiatReleaseConfirm, Status.isSettlementActive, Actor.isSellerOf,
    fullReleaseEscrow, soloEscrow, sellerActor, okEnv,
    Escrow.formattedTotalDeposited, Escrow.totalDepositedWeiOpt,
    Escrow.totalDeposited, completeRelease, jsOr, formatUnits]
  try rfl

/-- C4 amended: the three consent-gated settlement branches enforce the
quorum exactly as the claim states: a bilateral release call implies
the release quorum (admin flag or both party flags) held at the moment
of the click; a refund call implies both refund party flags held; an
admin release call implies the actor was an admin; a single non-admin
party acting alone on a trade with no prior consent triggers no
transfer through those branches; and conversely, when the quorum holds
at the triggering event and every validation of the release branch
passes, the transfer collaborator is invoked.  The fiat-release branch,
however, bypasses the consent protocol entirely: the only gate its
transfer invocation implies is that the clicking user is the seller. -/
theorem C4_quorum_gate :
    (∀ (env : TransferEnv) (d : ℕ) (cb : Option Nat) (a : Actor) (e : Escrow),
      (releaseConfirmYes env d cb a e).calls ≠ [] →
      releaseQuorum (applyReleaseConsent e a) = true) ∧
    (∀ (env : TransferEnv) (d : ℕ) (cb : Option Nat) (a : Actor) (e : Escrow),
      (refundConfirmYes env d cb a e).calls ≠ [] →
      refundQuorum (applyRefundConsent e a) = true) ∧
    (∀ (env : TransferEnv) (d : ℕ) (cb : Option Nat) (a : Actor) (e : Escrow),
      (adminReleaseConfirmYes env d cb a e).calls ≠ [] →
      a.isAdminUser = true) ∧
    (∀ (env : TransferEnv) (d : ℕ) (cb : Option Nat) (a : Actor) (e : Escrow),
      a.isAdminUser = false →
      e.buyerConfirmedRelease = false → e.sellerConfirmedRelease = false →
      e.adminConfirmedRelease = false → e.buyerConfirmedRefund = false →
      e.sellerConfirmedRefund = false →
      ¬ (e.buyerId = some a.userId ∧ e.sellerId = some a.userId) →
      (releaseConfirmYes env d cb a e).calls = [] ∧
      (refundConfirmYes env d cb a e).calls = []) ∧
    (∀ (env : TransferEnv) (d : ℕ) (cb : Option Nat) (a : Actor) (e : Escrow),
      e.status.isSettlementActive = true →
      staleMsg e.releaseConfirmationMessageId cb = false →
      (a.isBuyerOf e = true ∨ a.isSellerOf e = true ∨ a.isAdminUser = true) →
      e.releaseTransactionHash = none → e.buyerAddress ≠ none →
      0 < e.totalDeposited →
      releaseAmountOf e d ≤ e.formattedTotalDeposited d →
      0 < releaseAmountOf e d → 0 < releaseNetOf e d →
      releaseQuorum (applyReleaseConsent e a) = true →
      (releaseConfirmYes env d cb a e).calls ≠ []) ∧
    (∀ (env : TransferEnv) (d : ℕ) (a : Actor) (e : Escrow),
      (fiatReleaseConfirm env d a e).calls ≠ [] →
      e.sellerId = some a.userId) := by
  refine ⟨releaseConfirmYes_calls_quorum, refundConfirmYes_calls_quorum,
    adminReleaseConfirmYes_calls_admin, ?_, ?_,
    fiatReleaseConfirm_calls_seller⟩
  · intro env d cb a e hadm hbr hsr har hbrf hsrf hids
    constructor
    · by_contra hne
      have hq := releaseConfirmYes_calls_quorum env d cb a e hne
      simp [releaseQuorum, applyReleaseConsent, hadm, hbr, hsr, har,
        Actor.isBuyerOf, Actor.isSellerOf] at hq
      exact hids hq
    · by_contra hne
      have hq := refundConfirmYes_calls_quorum env d cb a e hne
      simp [refundQuorum, applyRefundConsent, hadm, hbrf, hsrf,
        Actor.isBuyerOf, Actor.isSellerOf] at hq
      exact hids hq
  · intro env d cb a e hst hstale hacc hhash haddr hpos hle hgt hnet hq
    rw [releaseConfirmYes_exec env d cb a e hst hstale hacc hq,
      releaseExec_invokes env d (applyReleaseConsent e a) hhash hst haddr
        hpos hle hgt hnet]
    simp

/-- C4 witness: the gates of the amended C4 at concrete inputs: the
executing full release implies its quorum, the executing refund implies
both flags, the executing admin release implies an admin actor, a lone
non-admin click triggers nothing through the consent branches, a valid
quorate release does call the collaborator, and the executing
fiat-release implies only that the actor is the seller. -/
theorem C4_witness :
    releaseQuorum (applyReleaseConsent fullReleaseEscrow sellerActor) = true ∧
    refundQuorum (applyRefundConsent refundOverEscrow sellerActor) = true ∧
    adminActor.isAdminUser = true ∧
    ((releaseConfirmYes okEnv 18 (some 5) buyerActor soloEscrow).calls = [] ∧
     (refundConfirmYes okEnv 18 (some 5) buyerActor soloEscrow).calls = []) ∧
    (releaseConfirmYes okEnv 18 (some 5) sellerActor fullReleaseEscrow).calls
      ≠ [] ∧
    soloEscrow.sellerId = some sellerActor.userId := by
  have hrel : (releaseConfirmYes okEnv 18 (some 5) sellerActor
      fullReleaseEscrow).calls
      = [⟨.release, "USDT", "BSC", some "0xbuyer", 9947/10, none⟩] := by
    norm_num [releaseConfirmYes, releaseExec, applyReleaseConsent,
      releaseQuorum, staleMsg, Status.isSettlementActive, Status.isTerminal,
      Actor.isBuyerOf, Actor.isSellerOf, fullReleaseEscrow, sellerActor,
      okEnv, Escrow.totalDeposited, Escrow.totalDepositedWeiOpt,
      Escrow.formattedTotalDeposited, releaseAmountOf, releaseNetOf,
      computeAmountWeiOverride, completeRelease, jsOr, jsAbs, EPSILON,
      parseUnits, formatUnits, clampRemainingWei]
    try rfl
  have href : (refundConfirmYes okEnv 18 (some 6) sellerActor
      refundOverEscrow).calls
      = [⟨.refund, "USDT", "BSC", some "0xseller", 9997/10, none⟩] := by
    norm_num [refundConfirmYes, refundExec, applyRefundConsent, refundQuorum,
      staleMsg, Actor.isBuyerOf, Actor.isSellerOf, fullReleaseEscrow,
      refundOverEscrow, sellerActor, okEnv, roundToDecimals,
      refundTotalDeposited, refundAmountOf, jsOr, jsAbs, EPSILON, round_eq]
    try rfl
  have hadm : (adminReleaseConfirmYes okEnv 18 (some 5) adminActor
      adminScenarioEscrow).calls.map (fun c => c.amount)
      = [4972/5, 1988803/1990] := by
    norm_num [adminReleaseConfirmYes, adminReleaseExec, adminGrossUpAmount,
      floor2, staleMsg, Status.isSettlementActive, Status.isTerminal,
      Actor.isBuyerOf, Actor.isSellerOf, fullReleaseEscrow,
      adminScenarioEscrow, adminActor, okEnv, Escrow.totalDeposited,
      Escrow.totalDepositedWeiOpt, Escrow.formattedTotalDeposited,
      computeAmountWeiOverride, completeRelease, jsOr, jsAbs, EPSILON,
      parseUnits, formatUnits, clampRemainingWei, round_eq, Int.tdiv]
    try rfl
  have hfiat : (fiatReleaseConfirm okEnv 18 sellerActor soloEscrow).calls
      = [⟨.release, "USDT", "BSC", some "0xbuyer", 9997/10, none⟩] := by
    norm_num [fiatReleaseConfirm, Status.isSettlementActive, Actor.isSellerOf,
      fullReleaseEscrow, soloEscrow, sellerActor, okEnv,
      Escrow.formattedTotalDeposited, Escrow.totalDepositedWeiOpt,
      Escrow.totalDeposited, completeRelease, jsOr, formatUnits]
    try rfl
  refine ⟨C4_quorum_gate.1 okEnv 18 (some 5) sellerActor fullReleaseEscrow
      (by rw [hrel]; simp),
    C4_quorum_gate.2.1 okEnv 18 (some 6) sellerActor refundOverEscrow
      (by rw [href]; simp),
    C4_quorum_gate.2.2.1 okEnv 18 (some 5) adminActor adminScenarioEscrow
      ?_,
    C4_quorum_gate.2.2.2.1 okEnv 18 (some 5) buyerActor soloEscrow rfl rfl
      rfl rfl rfl rfl (by decide),
    C4_quorum_gate.2.2.2.2.1 okEnv 18 (some 5) sellerActor fullReleaseEscrow
      rfl rfl (Or.inr (Or.inl rfl)) rfl (by decide) ?_ ?_ ?_ ?_ (by decide),
    C4_quorum_gate.2.2.2.2.2 okEnv 18 sellerActor soloEscrow
      (by rw [hfiat]; simp)⟩
  · intro hc
    rw [hc] at hadm
    simp at hadm
  · norm_num [Escrow.totalDeposited, jsOr, fullReleaseEscrow]
  · norm_num [releaseAmountOf, Escrow.formattedTotalDeposited,
      Escrow.totalDepositedWeiOpt, Escrow.totalDeposited, jsOr,
      fullReleaseEscrow]
  · norm_num [releaseAmountOf, Escrow.formattedTotalDeposited,
      Escrow.totalDepositedWeiOpt, Escrow.totalDeposited, jsOr,
      fullReleaseEscrow]
  · norm_num [releaseNetOf, releaseAmountOf, Escrow.formattedTotalDeposited,
      Escrow.totalDepositedWeiOpt, Escrow.totalDeposited, jsOr,
      fullReleaseEscrow]

/-- C5: on the round-trip escrow (accumulated 1000, feeRate 0.5 percent,
network fee 0.3, no pending partial amount), the quorum-triggered
bilateral release invokes the transfer collaborator with exactly
994.7 = 1000 - 1000 * 0.005 - 0.3, and afterwards the accumulated
balance is zero and the status is completed. -/
theorem C5_full_release :
    (releaseConfirmYes okEnv 18 (some 5) sellerActor fullReleaseEscrow).calls
      = [⟨.release, "USDT", "BSC", some "0xbuyer", 9947/10, none⟩] ∧
    (releaseConfirmYes okEnv 18 (some 5) sellerActor
      fullReleaseEscrow).escrow.accumulatedDepositAmount = 0 ∧
    (releaseConfirmYes okEnv 18 (some 5) sellerActor
      fullReleaseEscrow).escrow.status = .completed := by
  refine ⟨?_, ?_, ?_⟩ <;>
    (norm_num [releaseConfirmYes, releaseExec, applyReleaseConsent,
      releaseQuorum, staleMsg, Status.isSettlementActive, Status.isTerminal,
      Actor.isBuyerOf, Actor.isSellerOf, fullReleaseEscrow, sellerActor,
      okEnv, Escrow.totalDeposited, Escrow.totalDepositedWeiOpt,
      Escrow.formattedTotalDeposited, releaseAmountOf, releaseNetOf,
      computeAmountWeiOverride, completeRelease, jsOr, jsAbs, EPSILON,
      parseUnits, formatUnits, clampRemainingWei]; try rfl)

/-- C6 (as stated, refuted): after the partial release of 400, the
release consent flags are NOT reset to false: both party flags remain
true on the saved record. -/
theorem C6_counterexample :
    (releaseConfirmYes okEnv 18 (some 5) sellerActor
      partialReleaseEscrow).escrow.buyerConfirmedRelease = true ∧
    (releaseConfirmYes okEnv 18 (some 5) sellerActor
      partialReleaseEscrow).escrow.sellerConfirmedRelease = true := by
  refine ⟨?_, ?_⟩ <;>
    (norm_num [releaseConfirmYes, releaseExec, applyReleaseConsent,
      releaseQuorum, staleMsg, Status.isSettlementActive, Status.isTerminal,
      Actor.isBuyerOf, Actor.isSellerOf, fullReleaseEscrow,
      partialReleaseEscrow, sellerActor, okEnv, Escrow.totalDeposited,
      Escrow.totalDepositedWeiOpt, Escrow.formattedTotalDeposited,
      releaseAmountOf, releaseNetOf, computeAmountWeiOverride,
      completeRelease, jsOr, jsAbs, EPSILON, parseUnits, formatUnits,
      clampRemainingWei, round_eq, Int.tdiv]; try rfl)

/-- C6 amended: the partial release of 400 against the 1000 balance
computes the net against 400 (transfer of 397.7), leaves 600 in
accumulatedDepositAmount mirrored in depositAmount, confirmedAmount and
the proportional wei remainder, keeps the status pre-terminal
(deposited) and clears pendingReleaseAmount — but the consent flags are
NOT reset: both release party flags remain true. -/
theorem C6_amended :
    (releaseConfirmYes okEnv 18 (some 5) sellerActor
      partialReleaseEscrow).calls
      = [⟨.release, "USDT", "BSC", some "0xbuyer", 3977/10, none⟩] ∧
    (releaseConfirmYes okEnv 18 (some 5) sellerActor
      partialReleaseEscrow).escrow.accumulatedDepositAmount = 600 ∧
    (releaseConfirmYes okEnv 18 (some 5) sellerActor
      partialReleaseEscrow).escrow.depositAmount = 600 ∧
    (releaseConfirmYes okEnv 18 (some 5) sellerActor
      partialReleaseEscrow).escrow.confirmedAmount = 600 ∧
    (releaseConfirmYes okEnv 18 (some 5) sellerActor
      partialReleaseEscrow).escrow.accumulatedDepositAmountWei
      = 6 * 10 ^ 20 ∧
    (releaseConfirmYes okEnv 18 (some 5) sellerActor
      partialReleaseEscrow).escrow.status = .deposited ∧
    (releaseConfirmYes okEnv 18 (some 5) sellerActor
      partialReleaseEscrow).escrow.pendingReleaseAmount = none ∧
    (releaseConfirmYes okEnv 18 (some 5) sellerActor
      partialReleaseEscrow).escrow.buyerConfirmedRelease = true ∧
    (releaseConfirmYes okEnv 18 (some 5) sellerActor
      partialReleaseEscrow).escrow.sellerConfirmedRelease = true := by
  refine ⟨?_, ?_, ?_, ?_, ?_, ?_, ?_, ?_, ?_⟩ <;>
    (norm_num [releaseConfirmYes, releaseExec, applyReleaseConsent,
      releaseQuorum, staleMsg, Status.isSettlementActive, Status.isTerminal,
      Actor.isBuyerOf, Actor.isSellerOf, fullReleaseEscrow,
      partialReleaseEscrow, sellerActor, okEnv, Escrow.totalDeposited,
      Escrow.totalDepositedWeiOpt, Escrow.formattedTotalDeposited,
      releaseAmountOf, releaseNetOf, computeAmountWeiOverride,
      completeRelease, jsOr, jsAbs, EPSILON, parseUnits, formatUnits,
      clampRemainingWei, round_eq, Int.tdiv]; try rfl)

end P2PMM


namespace P2PMM

/-- C7 (as stated, refuted): a deposit of 1 against an agreed quantity
of 100 still moves the trade from awaiting-deposit to deposited: the
check-deposit branch compares the new amount only against zero, never
against the agreed quantity. -/
theorem C7_counterexample :
    depositEscrow.status = Status.awaitingDeposit ∧
    depositEscrow.quantity = some 100 ∧
    smallDepositTx.valueDecimal = 1 ∧
    (checkDeposit depositEscrow (some 123) [smallDepositTx]).1.status
      = Status.deposited := by
  refine ⟨rfl, rfl, rfl, ?_⟩
  norm_num [checkDeposit, depositFilter, Escrow.hashRecorded, recordHashes,
    depositEscrow, fullReleaseEscrow, smallDepositTx, List.filter]
  try rfl

/-- C7 amended: a check-deposit event on a trade in awaiting-deposit or
deposited updates the ledger (depositAmount and confirmedAmount raised
by the filtered new amount) and sets the status to deposited whenever
ANY positive new amount is observed, regardless of the agreed quantity;
when no new amount is observed the record is unchanged. -/
theorem C7_amended :
    (∀ (e : Escrow) (l : Option Nat) (txs : List ObservedTx) (vault : String),
      e.status = Status.awaitingDeposit ∨ e.status = Status.deposited →
      e.depositAddress = some vault →
      0 < ((txs.filter (depositFilter e vault)).map
        (fun tx => tx.valueDecimal)).sum →
      (checkDeposit e l txs).1.status = Status.deposited ∧
      (checkDeposit e l txs).1.depositAmount = e.depositAmount +
        ((txs.filter (depositFilter e vault)).map
          (fun tx => tx.valueDecimal)).sum ∧
      (checkDeposit e l txs).1.confirmedAmount = e.depositAmount +
        ((txs.filter (depositFilter e vault)).map
          (fun tx => tx.valueDecimal)).sum) ∧
    (∀ (e : Escrow) (l : Option Nat) (txs : List ObservedTx) (vault : String),
      e.depositAddress = some vault →
      ¬ (0 < ((txs.filter (depositFilter e vault)).map
        (fun tx => tx.valueDecimal)).sum) →
      (checkDeposit e l txs).1 = e) :=
  ⟨checkDeposit_positive, checkDeposit_zero⟩

/-- C7 witness: the amended statement at the concrete below-quantity
deposit of 1 against quantity 100. -/
theorem C7_witness :
    (checkDeposit depositEscrow (some 123) [smallDepositTx]).1.status
      = Status.deposited ∧
    (checkDeposit depositEscrow (some 123) [smallDepositTx]).1.depositAmount
      = depositEscrow.depositAmount +
        (([smallDepositTx].filter (depositFilter depositEscrow "0xvault")).map
          (fun tx => tx.valueDecimal)).sum ∧
    (checkDeposit depositEscrow (some 123) [smallDepositTx]).1.confirmedAmount
      = depositEscrow.depositAmount +
        (([smallDepositTx].filter (depositFilter depositEscrow "0xvault")).map
          (fun tx => tx.valueDecimal)).sum := by
  refine C7_amended.1 depositEscrow (some 123) [smallDepositTx] "0xvault"
    (Or.inl rfl) rfl ?_
  norm_num [depositFilter, Escrow.hashRecorded, depositEscrow,
    fullReleaseEscrow, smallDepositTx, List.filter]

/-- C8: duplicate deposit hashes are a no-op for the ledger: an observed
transfer whose hash is already recorded (primary or partial list) is
filtered out, so processing it changes nothing; and a fresh transfer
processed twice (two successive check runs) increases the deposit
ledger exactly once. -/
theorem C8_duplicate_hash :
    (∀ (e : Escrow) (l : Option Nat) (tx : ObservedTx)
      (txs : List ObservedTx) (hsh : String),
      tx.hash = some hsh → e.hashRecorded hsh = true →
      checkDeposit e l (tx :: txs) = checkDeposit e l txs) ∧
    (∀ (e : Escrow) (l l2 : Option Nat) (tx : ObservedTx)
      (hsh vault : String),
      tx.hash = some hsh →
      e.status = Status.awaitingDeposit ∨ e.status = Status.deposited →
      e.depositAddress = some vault →
      tx.toAddr.toLower = vault.toLower →
      e.hashRecorded hsh = false →
      0 < tx.valueDecimal →
      (checkDeposit e l [tx]).1.depositAmount
        = e.depositAmount + tx.valueDecimal ∧
      (checkDeposit (checkDeposit e l [tx]).1 l2 [tx]).1.depositAmount
        = e.depositAmount + tx.valueDecimal) := by
  constructor
  · exact checkDeposit_dup_cons
  · intro e l l2 tx hsh vault htx hst hda hto hfresh hval
    obtain ⟨hrec1, hamt⟩ :=
      checkDeposit_single_fresh e l tx hsh vault htx hst hda hto hfresh hval
    refine ⟨hamt, ?_⟩
    rw [checkDeposit_dup_cons _ l2 tx [] hsh htx hrec1, checkDeposit_nil]
    exact hamt

/-- C8 witness: re-reporting the recorded primary hash is a no-op, and a
fresh deposit of 1 processed in two successive runs raises the ledger
by exactly 1. -/
theorem C8_witness :
    checkDeposit fullReleaseEscrow (some 7) [dupDepositTx]
      = checkDeposit fullReleaseEscrow (some 7) [] ∧
    ((checkDeposit depositEscrow (some 123) [smallDepositTx]).1.depositAmount
      = depositEscrow.depositAmount + smallDepositTx.valueDecimal ∧
    (checkDeposit (checkDeposit depositEscrow (some 123) [smallDepositTx]).1
        (some 124) [smallDepositTx]).1.depositAmount
      = depositEscrow.depositAmount + smallDepositTx.valueDecimal) := by
  constructor
  · exact C8_duplicate_hash.1 fullReleaseEscrow (some 7) dupDepositTx []
      "0xdep" rfl (by simp [Escrow.hashRecorded, fullReleaseEscrow])
  · exact C8_duplicate_hash.2 depositEscrow (some 123) (some 124)
      smallDepositTx "0xaaa" "0xvault" rfl (Or.inl rfl) rfl rfl
      (by simp [Escrow.hashRecorded, depositEscrow, fullReleaseEscrow])
      (by norm_num [smallDepositTx])

/-- C9: in the refund consent handler an admin who is neither buyer nor
seller sets both party flags (there is no separate admin refund flag):
the updated record equals the record with both refund flags true, it
equals the record produced by a buyer click followed by a seller click,
and the whole handler run triggered by such an admin is equal — record,
transfer calls and signal — to the bilateral run. -/
theorem C9_admin_refund_consent :
    (∀ (e : Escrow) (a : Actor),
      a.isAdminUser = true → a.isBuyerOf e = false → a.isSellerOf e = false →
      applyRefundConsent e a =
        { e with buyerConfirmedRefund := true,
                 sellerConfirmedRefund := true }) ∧
    (∀ (e : Escrow) (a b s : Actor),
      a.isAdminUser = true → a.isBuyerOf e = false → a.isSellerOf e = false →
      b.isBuyerOf e = true → s.isSellerOf e = true →
      applyRefundConsent e a =
        applyRefundConsent (applyRefundConsent e b) s) ∧
    (∀ (env : TransferEnv) (d : ℕ) (cb : Option Nat) (a b s : Actor)
      (e : Escrow),
      staleMsg e.refundConfirmationMessageId cb = false →
      a.isAdminUser = true → a.isBuyerOf e = false → a.isSellerOf e = false →
      b.isBuyerOf e = true → b.isSellerOf e = false → b.isAdminUser = false →
      s.isSellerOf e = true →
      e.buyerConfirmedRefund = false → e.sellerConfirmedRefund = false →
      refundConfirmYes env d cb a e =
        refundConfirmYes env d cb s ((refundConfirmYes env d cb b e).escrow)) :=
  ⟨applyRefundConsent_admin, applyRefundConsent_admin_eq_bilateral,
   refundConfirmYes_admin_eq_bilateral⟩

/-- C9 witness: the admin-refund flag behaviour at a concrete trade with
no consent recorded: the admin click record equals the both-flags
record, and the full admin handler run equals the bilateral
buyer-then-seller run. -/
theorem C9_witness :
    applyRefundConsent soloEscrow adminActor =
      { soloEscrow with buyerConfirmedRefund := true,
                        sellerConfirmedRefund := true } ∧
    refundConfirmYes okEnv 18 (some 6) adminActor soloEscrow =
      refundConfirmYes okEnv 18 (some 6) sellerActor
        ((refundConfirmYes okEnv 18 (some 6) buyerActor soloEscrow).escrow) := by
  refine ⟨C9_admin_refund_consent.1 soloEscrow adminActor rfl (by decide)
      (by decide),
    C9_admin_refund_consent.2.2 okEnv 18 (some 6) adminActor buyerActor
      sellerActor soloEscrow rfl rfl (by decide) (by decide) (by decide)
      (by decide) rfl (by decide) rfl rfl⟩

/-- C10: the integer minor-unit remainder is clamped at zero: the clamp
is non-negative on every input, and a run of either release handler
keeps the stored wei mirror non-negative whenever it started
non-negative. -/
theorem C10_wei_clamp :
    (∀ t o : ℤ, 0 ≤ clampRemainingWei t o) ∧
    (∀ (env : TransferEnv) (d : ℕ) (cb : Option Nat) (a : Actor) (e : Escrow),
      0 ≤ e.accumulatedDepositAmountWei →
      0 ≤ (releaseConfirmYes env d cb a e).escrow.accumulatedDepositAmountWei) ∧
    (∀ (env : TransferEnv) (d : ℕ) (cb : Option Nat) (a : Actor) (e : Escrow),
      0 ≤ e.accumulatedDepositAmountWei →
      0 ≤ (adminReleaseConfirmYes env d cb a
        e).escrow.accumulatedDepositAmountWei) :=
  ⟨clampRemainingWei_nonneg, releaseConfirmYes_wei_nonneg,
   adminReleaseConfirmYes_wei_nonneg⟩

/-- C10 witness: a clamp input whose difference is negative still yields
a non-negative stored value, and the concrete partial release run keeps
the wei mirror non-negative. -/
theorem C10_witness :
    0 ≤ clampRemainingWei 3 5 ∧
    0 ≤ (releaseConfirmYes okEnv 18 (some 5) sellerActor
      partialReleaseEscrow).escrow.accumulatedDepositAmountWei ∧
    0 ≤ (adminReleaseConfirmYes okEnv 18 (some 5) adminActor
      adminScenarioEscrow).escrow.accumulatedDepositAmountWei := by
  refine ⟨C10_wei_clamp.1 3 5,
    C10_wei_clamp.2.1 okEnv 18 (some 5) sellerActor partialReleaseEscrow
      (by decide),
    C10_wei_clamp.2.2 okEnv 18 (some 5) adminActor adminScenarioEscrow
      (by decide)⟩

end P2PMM

